import Mathlib

/-!
Verification of the configuration-resolution core of Flask-EasyJWT
(src/flask_easyjwt/flask_easyjwt.py), as a shallow embedding.

Python values that may appear in a Flask configuration mapping are
modelled by `PyValue`; the configuration itself is an association list
(Python dict with insertion order); `datetime` and `timedelta` objects
are modelled by their count of microseconds (the internal resolution of
`datetime.timedelta`).  A missing dictionary key raises `KeyError` in
Python, so lookups that use bracket access are modelled in `Except`.
Accessors thread the application state through explicitly so that frame
properties (the accessors never mutate the configuration) are statable.
-/

set_option autoImplicit false

deriving instance DecidableEq for Except

namespace FlaskEasyJWT

/-- A Python value stored in an application configuration entry.
`pynone` is Python `None`; `timedelta` carries microseconds (the
internal unit of `datetime.timedelta`); `other` stands for a value of
any type that is none of `None`, `str`, `int`, `bool`, `timedelta`
(e.g. a float or a list), tagged for distinguishability. -/
inductive PyValue where
  | pynone
  | str (s : String)
  | int (n : Int)
  | bool (b : Bool)
  | timedelta (microseconds : Int)
  | other (tag : String)
  deriving DecidableEq

/-- Digits of a decimal numeral, embedded from the digit loop inside
the Python built-in `int(str)`: a non-empty run of ASCII digits. -/
def parseDigits (cs : List Char) : Option Nat :=
  if cs = [] then none
  else if cs.all Char.isDigit then
    some (cs.foldl (fun acc c => acc * 10 + (c.toNat - 48)) 0)
  else none

/-- Embedding of the Python built-in `int(s)` applied to a string, as
used on line 70 of flask_easyjwt.py: leading and trailing whitespace is
stripped, then an optional sign followed by a non-empty run of decimal
digits is accepted; anything else raises `ValueError` (here: `none`).
Digit-group underscores and non-ASCII decimal digits, which CPython
also accepts, are not modelled; no claim depends on them. -/
def pyIntOfString (s : String) : Option Int :=
  match ((s.toList.dropWhile Char.isWhitespace).reverse.dropWhile Char.isWhitespace).reverse with
  | '+' :: rest => (parseDigits rest).map Int.ofNat
  | '-' :: rest => (parseDigits rest).map (fun n => -(Int.ofNat n : Int))
  | cs => (parseDigits cs).map Int.ofNat

/-- A Flask application configuration: a Python dict from string keys
to values, with insertion order, modelled as an association list. -/
abbrev Config := List (String × PyValue)

/-- Dict lookup: the value of the first (and in a dict, only) entry
with the given key. `none` models the key being absent. -/
def lookup : Config → String → Option PyValue
  | [], _ => none
  | (k, v) :: rest, key => if k = key then some v else lookup rest key

/-- Python `dict.setdefault(k, v)`: if `k` is present the dict is
unchanged, otherwise the entry `(k, v)` is inserted at the end. -/
def setdefault (cfg : Config) (k : String) (v : PyValue) : Config :=
  match lookup cfg k with
  | some _ => cfg
  | none => cfg ++ [(k, v)]

/-- The extension registry `application.extensions`: a dict from
extension names to extension object identities (modelled as `Nat`). -/
abbrev ExtRegistry := List (String × Nat)

/-- Python dict assignment `d[k] = v`: replaces the value of an
existing entry in place, or appends a new entry. -/
def store : ExtRegistry → String → Nat → ExtRegistry
  | [], k, v => [(k, v)]
  | (k', v') :: rest, k, v =>
      if k' = k then (k, v) :: rest else (k', v') :: store rest k v

/-- The observable state of a Flask application relevant to the
extension: its configuration mapping and its extension registry. -/
structure App where
  config : Config
  extensions : ExtRegistry
  deriving DecidableEq

/-- Python exceptions raised by the embedded code paths: `KeyError`
from a dict bracket access on a missing key, and `RuntimeError` from
touching `current_app` outside of an application context. -/
inductive PyError where
  | keyError (key : String)
  | runtimeError (msg : String)
  deriving DecidableEq

/-- `_CONFIGURATION_KEY` (flask_easyjwt.py line 18). -/
def CONFIGURATION_KEY : String := "EASYJWT_KEY"

/-- `_CONFIGURATION_TOKEN_VALIDITY` (flask_easyjwt.py line 23). -/
def CONFIGURATION_TOKEN_VALIDITY : String := "EASYJWT_TOKEN_VALIDITY"

/-- The warning text of line 83 with the f-string interpolation
resolved. -/
def validityWarning : String :=
  "EASYJWT_TOKEN_VALIDITY must be an int, a string castable to an int, or datetime.timedelta."

/-- The warning text of line 101 with the f-string interpolation
resolved. -/
def noKeyAccessWarning : String :=
  "No key set, token will not be encrypted. Set EASYJWT_KEY."

/-- The warning text of line 140 with the f-string interpolation
resolved. -/
def noKeyInitWarning : String :=
  "No key set for encrypting tokens. Set SECRET_KEY or EASYJWT_KEY."

/-- `msg` has `sub` as a contiguous substring. -/
def containsSubstr (msg sub : String) : Prop :=
  ∃ a b, msg = a ++ sub ++ b

/-- `FlaskEasyJWT._application` (lines 39 to 51): the explicitly bound
application if one was given to the constructor, else the ambient
`current_app`; touching `current_app` with no active application
context raises `RuntimeError`. -/
def application (explicitApplication : Option App) (currentApp : Option App) :
    Except PyError App :=
  match explicitApplication with
  | some app => .ok app
  | none =>
      match currentApp with
      | some app => .ok app
      | none => .error (.runtimeError "Working outside of application context.")

/-- The result of evaluating an accessor on a resolved application:
the returned value or the propagated exception, the warnings emitted
during the call in order, and the application state after the call. -/
structure AccessOutcome (α : Type) where
  result : Except PyError α
  warnings : List String
  finalApp : App

/-- `FlaskEasyJWT.expiration_date` (lines 53 to 87) evaluated against a
resolved application, with `now` the value of `datetime.utcnow()` in
microseconds.  Bracket access on line 63 raises `KeyError` when the
validity entry is absent.  `isinstance(validity, int)` on line 78 is
true for `bool` values as well, since Python bool is a subtype of int,
and `timedelta(seconds=True)` is one second. -/
def expiration_date (app : App) (now : Int) : AccessOutcome (Option Int) :=
  match lookup app.config CONFIGURATION_TOKEN_VALIDITY with
  | none => ⟨.error (.keyError CONFIGURATION_TOKEN_VALIDITY), [], app⟩
  | some validity =>
      if validity = .pynone then ⟨.ok none, [], app⟩
      else
        let validity1 : PyValue :=
          match validity with
          | .str s =>
              match pyIntOfString s with
              | some n => .int n
              | none => .str s
          | v => v
        let validity2 : PyValue :=
          match validity1 with
          | .int n => .timedelta (n * 1000000)
          | .bool b => .timedelta ((if b then 1 else 0) * 1000000)
          | v => v
        match validity2 with
        | .timedelta microseconds => ⟨.ok (some (now + microseconds)), [], app⟩
        | _ => ⟨.ok none, [validityWarning], app⟩

/-- `FlaskEasyJWT.key` (lines 89 to 104) evaluated against a resolved
application.  Bracket access on line 99 raises `KeyError` when the key
entry is absent. -/
def key (app : App) : AccessOutcome (Option PyValue) :=
  match lookup app.config CONFIGURATION_KEY with
  | none => ⟨.error (.keyError CONFIGURATION_KEY), [], app⟩
  | some k =>
      if k = .pynone then ⟨.ok none, [noKeyAccessWarning], app⟩
      else ⟨.ok (some k), [], app⟩

/-- The `key` accessor including the `_application` resolution step:
the context error from line 51 propagates before any configuration
read. -/
def keyAccessor (explicitApplication currentApp : Option App) :
    Except PyError (Option PyValue) × List String :=
  match application explicitApplication currentApp with
  | .error e => (.error e, [])
  | .ok app => ((key app).result, (key app).warnings)

/-- The `expiration_date` accessor including the `_application`
resolution step. -/
def expirationDateAccessor (explicitApplication currentApp : Option App)
    (now : Int) : Except PyError (Option Int) × List String :=
  match application explicitApplication currentApp with
  | .error e => (.error e, [])
  | .ok app => ((expiration_date app now).result, (expiration_date app now).warnings)

/-- `FlaskEasyJWT.init_app` (lines 121 to 140): register the extension
object (identified by `extSelf`) under the name easyjwt, read the
application secret key with `config.get` (absent defaults to `None`),
install `setdefault` defaults for the dedicated key and the validity,
and warn if the dedicated key entry is still `None` afterwards.
Returns the new application state and the warnings emitted. -/
def init_app (extSelf : Nat) (app : App) : App × List String :=
  let exts := store app.extensions "easyjwt" extSelf
  let secret_key := (lookup app.config "SECRET_KEY").getD .pynone
  let cfg1 := setdefault app.config CONFIGURATION_KEY secret_key
  let cfg2 := setdefault cfg1 CONFIGURATION_TOKEN_VALIDITY .pynone
  let warnings :=
    if lookup cfg2 CONFIGURATION_KEY = some .pynone then [noKeyInitWarning] else []
  (⟨cfg2, exts⟩, warnings)

/-! ### Case lemmas for the accessors -/

/-- A configured `timedelta` validity is used as-is. -/
theorem expiration_date_of_timedelta (app : App) (now us : Int)
    (h : lookup app.config CONFIGURATION_TOKEN_VALIDITY = some (.timedelta us)) :
    expiration_date app now = ⟨.ok (some (now + us)), [], app⟩ := by
  simp [expiration_date, h]

/-- A configured `int` validity is interpreted as a count of seconds. -/
theorem expiration_date_of_int (app : App) (now n : Int)
    (h : lookup app.config CONFIGURATION_TOKEN_VALIDITY = some (.int n)) :
    expiration_date app now = ⟨.ok (some (now + n * 1000000)), [], app⟩ := by
  simp [expiration_date, h]

/-- A configured string validity that parses as an integer is
interpreted as a count of seconds. -/
theorem expiration_date_of_numeric_str (app : App) (now : Int) (s : String) (n : Int)
    (hs : lookup app.config CONFIGURATION_TOKEN_VALIDITY = some (.str s))
    (hp : pyIntOfString s = some n) :
    expiration_date app now = ⟨.ok (some (now + n * 1000000)), [], app⟩ := by
  simp [expiration_date, hs, hp]

/-- A configured string validity that fails integer parsing is
rejected with one warning. -/
theorem expiration_date_of_nonnumeric_str (app : App) (now : Int) (s : String)
    (hs : lookup app.config CONFIGURATION_TOKEN_VALIDITY = some (.str s))
    (hp : pyIntOfString s = none) :
    expiration_date app now = ⟨.ok none, [validityWarning], app⟩ := by
  simp [expiration_date, hs, hp]

/-- A configured validity of any other type is rejected with one
warning. -/
theorem expiration_date_of_other (app : App) (now : Int) (tag : String)
    (h : lookup app.config CONFIGURATION_TOKEN_VALIDITY = some (.other tag)) :
    expiration_date app now = ⟨.ok none, [validityWarning], app⟩ := by
  simp [expiration_date, h]

/-- A configured `bool` validity passes the `isinstance(validity, int)`
check and becomes `timedelta(seconds=validity)`. -/
theorem expiration_date_of_bool_val (app : App) (now : Int) (b : Bool)
    (h : lookup app.config CONFIGURATION_TOKEN_VALIDITY = some (.bool b)) :
    expiration_date app now = ⟨.ok (some (now + (if b then 1 else 0) * 1000000)), [], app⟩ := by
  simp [expiration_date, h]

/-- A validity entry that is present with value `None` yields no
expiration date and no warning. -/
theorem expiration_date_of_null (app : App) (now : Int)
    (h : lookup app.config CONFIGURATION_TOKEN_VALIDITY = some .pynone) :
    expiration_date app now = ⟨.ok none, [], app⟩ := by
  simp [expiration_date, h]

/-- A validity entry that is absent from the configuration raises
`KeyError` from the bracket access on line 63. -/
theorem expiration_date_of_absent (app : App) (now : Int)
    (h : lookup app.config CONFIGURATION_TOKEN_VALIDITY = none) :
    expiration_date app now = ⟨.error (.keyError CONFIGURATION_TOKEN_VALIDITY), [], app⟩ := by
  simp [expiration_date, h]

/-! ### Dictionary lemmas -/

theorem lookup_append_of_none (cfg : Config) (k : String) (v : PyValue)
    (h : lookup cfg k = none) : lookup (cfg ++ [(k, v)]) k = some v := by
  induction cfg with
  | nil => simp [lookup]
  | cons hd tl ih =>
      rcases hd with ⟨k', v'⟩
      by_cases hk : k' = k
      · simp [lookup, hk] at h
      · simp only [lookup, hk, if_neg hk, List.cons_append] at h ⊢
        exact ih h

theorem lookup_append_of_some (cfg l2 : Config) (k : String) (w : PyValue)
    (h : lookup cfg k = some w) : lookup (cfg ++ l2) k = some w := by
  induction cfg with
  | nil => simp [lookup] at h
  | cons hd tl ih =>
      rcases hd with ⟨k', v'⟩
      by_cases hk : k' = k
      · simp only [lookup, if_pos hk, List.cons_append] at h ⊢
        exact h
      · simp only [lookup, if_neg hk, List.cons_append] at h ⊢
        exact ih h

theorem lookup_append_ne (cfg : Config) (k k' : String) (v : PyValue)
    (h : k ≠ k') : lookup (cfg ++ [(k, v)]) k' = lookup cfg k' := by
  induction cfg with
  | nil => simp [lookup, h]
  | cons hd tl ih =>
      rcases hd with ⟨k'', v''⟩
      by_cases hk : k'' = k'
      · simp [lookup, hk]
      · simp only [lookup, if_neg hk, List.cons_append]
        exact ih

theorem setdefault_of_some (cfg : Config) (k : String) (v w : PyValue)
    (h : lookup cfg k = some w) : setdefault cfg k v = cfg := by
  simp [setdefault, h]

theorem setdefault_of_none (cfg : Config) (k : String) (v : PyValue)
    (h : lookup cfg k = none) : setdefault cfg k v = cfg ++ [(k, v)] := by
  simp [setdefault, h]

theorem lookup_setdefault_self (cfg : Config) (k : String) (v : PyValue) :
    lookup (setdefault cfg k v) k = some ((lookup cfg k).getD v) := by
  rcases h : lookup cfg k with _ | w
  · rw [setdefault_of_none cfg k v h, lookup_append_of_none cfg k v h]
    rfl
  · rw [setdefault_of_some cfg k v w h, h]
    rfl

theorem lookup_setdefault_ne (cfg : Config) (k k' : String) (v : PyValue)
    (h : k ≠ k') : lookup (setdefault cfg k v) k' = lookup cfg k' := by
  rcases hk : lookup cfg k with _ | w
  · rw [setdefault_of_none cfg k v hk, lookup_append_ne cfg k k' v h]
  · rw [setdefault_of_some cfg k v w hk]

theorem store_store (l : ExtRegistry) (k : String) (v : Nat) :
    store (store l k v) k v = store l k v := by
  induction l with
  | nil => simp [store]
  | cons hd tl ih =>
      rcases hd with ⟨k', v'⟩
      by_cases hk : k' = k
      · simp [store, hk]
      · simp only [store, if_neg hk]
        rw [ih]

/-! ### Claims about the expiration date accessor -/

/-- Claim C1: the expiration date accessor coerces the raw validity
value with a fixed precedence: a `timedelta` value is used as-is (and
is never re-interpreted as an integer), an `int` counts seconds, a
string is parsed as an integer and on success counts seconds, and any
other type or a string that fails integer parsing is rejected with a
warning and no expiration date. -/
theorem expiration_date_coercion_precedence :
    (∀ app now us, lookup app.config CONFIGURATION_TOKEN_VALIDITY = some (.timedelta us) →
      expiration_date app now = ⟨.ok (some (now + us)), [], app⟩) ∧
    (∀ app now n, lookup app.config CONFIGURATION_TOKEN_VALIDITY = some (.int n) →
      expiration_date app now = ⟨.ok (some (now + n * 1000000)), [], app⟩) ∧
    (∀ app now s n, lookup app.config CONFIGURATION_TOKEN_VALIDITY = some (.str s) →
      pyIntOfString s = some n →
      expiration_date app now = ⟨.ok (some (now + n * 1000000)), [], app⟩) ∧
    (∀ app now s, lookup app.config CONFIGURATION_TOKEN_VALIDITY = some (.str s) →
      pyIntOfString s = none →
      expiration_date app now = ⟨.ok none, [validityWarning], app⟩) ∧
    (∀ app now tag, lookup app.config CONFIGURATION_TOKEN_VALIDITY = some (.other tag) →
      expiration_date app now = ⟨.ok none, [validityWarning], app⟩) :=
  ⟨expiration_date_of_timedelta, expiration_date_of_int,
    fun app now s n hs hp => expiration_date_of_numeric_str app now s n hs hp,
    fun app now s hs hp => expiration_date_of_nonnumeric_str app now s hs hp,
    expiration_date_of_other⟩

/-- Witness for claim C1 at a concrete input: a validity of
`timedelta(seconds=5)` gives an expiration date five seconds from
now. -/
theorem expiration_date_coercion_precedence_witness :
    expiration_date ⟨[("EASYJWT_TOKEN_VALIDITY", .timedelta 5000000)], []⟩ 100
      = ⟨.ok (some (100 + 5000000)), [], ⟨[("EASYJWT_TOKEN_VALIDITY", .timedelta 5000000)], []⟩⟩ :=
  expiration_date_coercion_precedence.1
    ⟨[("EASYJWT_TOKEN_VALIDITY", .timedelta 5000000)], []⟩ 100 5000000 (by decide)

/-- Claim C2: for a validity that is an integer `n ≥ 0` or a numeric
string parsing to `n`, the accessor returns now plus `n` seconds — a
timestamp between `now_b + n` seconds and `now_a + n` seconds for any
bracketing `now_b ≤ now ≤ now_a` — and emits no warning. -/
theorem expiration_date_nonneg_seconds (app : App) (now now_b now_a n : Int)
    (_hn : 0 ≤ n)
    (hv : lookup app.config CONFIGURATION_TOKEN_VALIDITY = some (.int n) ∨
      ∃ s, lookup app.config CONFIGURATION_TOKEN_VALIDITY = some (.str s) ∧
        pyIntOfString s = some n)
    (hb : now_b ≤ now) (ha : now ≤ now_a) :
    ∃ t, (expiration_date app now).result = .ok (some t) ∧
      now_b + n * 1000000 ≤ t ∧ t ≤ now_a + n * 1000000 ∧
      (expiration_date app now).warnings = [] := by
  refine ⟨now + n * 1000000, ?_⟩
  rcases hv with h | ⟨s, hs, hp⟩
  · rw [expiration_date_of_int app now n h]
    exact ⟨rfl, by omega, by omega, rfl⟩
  · rw [expiration_date_of_numeric_str app now s n hs hp]
    exact ⟨rfl, by omega, by omega, rfl⟩

/-- Witness for claim C2 at a concrete input: validity `"15"` at
`now = 100` with bracket `[90, 110]`. -/
theorem expiration_date_nonneg_seconds_witness :
    ∃ t, (expiration_date ⟨[("EASYJWT_TOKEN_VALIDITY", .str "15")], []⟩ 100).result
        = .ok (some t) ∧
      90 + 15 * 1000000 ≤ t ∧ t ≤ 110 + 15 * 1000000 ∧
      (expiration_date ⟨[("EASYJWT_TOKEN_VALIDITY", .str "15")], []⟩ 100).warnings = [] :=
  expiration_date_nonneg_seconds ⟨[("EASYJWT_TOKEN_VALIDITY", .str "15")], []⟩ 100 90 110 15
    (by decide) (Or.inr ⟨"15", by decide, by decide⟩) (by decide) (by decide)

/-- Claim C3 fails as stated: on a configuration in which the validity
entry is absent from the mapping, the accessor does not return `None`;
the bracket access on line 63 raises `KeyError`. -/
theorem expiration_date_absent_counterexample :
    (expiration_date ⟨[], []⟩ 0).result
        = .error (.keyError CONFIGURATION_TOKEN_VALIDITY) ∧
    ¬ (expiration_date ⟨[], []⟩ 0).result = .ok none := by
  refine ⟨rfl, ?_⟩
  decide

/-- Claim C3 amended: if the validity entry is present with value
`None`, the accessor returns `None` and emits no warning; if the entry
is absent from the mapping, a `KeyError` propagates instead of `None`
being returned. -/
theorem expiration_date_null_amended (app : App) (now : Int) :
    (lookup app.config CONFIGURATION_TOKEN_VALIDITY = some .pynone →
      expiration_date app now = ⟨.ok none, [], app⟩) ∧
    (lookup app.config CONFIGURATION_TOKEN_VALIDITY = none →
      expiration_date app now
        = ⟨.error (.keyError CONFIGURATION_TOKEN_VALIDITY), [], app⟩) :=
  ⟨expiration_date_of_null app now, expiration_date_of_absent app now⟩

/-- Witness for amended claim C3 at a concrete input: a null validity
entry yields `None` with no warning. -/
theorem expiration_date_null_amended_witness :
    expiration_date ⟨[("EASYJWT_TOKEN_VALIDITY", .pynone)], []⟩ 7
      = ⟨.ok none, [], ⟨[("EASYJWT_TOKEN_VALIDITY", .pynone)], []⟩⟩ :=
  (expiration_date_null_amended ⟨[("EASYJWT_TOKEN_VALIDITY", .pynone)], []⟩ 7).1 (by decide)

/-- Claim C4: a non-numeric string validity yields `None` and exactly
one warning whose text contains "must be an int, a string castable to
an int, or". -/
theorem expiration_date_nonnumeric_warns (app : App) (now : Int) (s : String)
    (hs : lookup app.config CONFIGURATION_TOKEN_VALIDITY = some (.str s))
    (hp : pyIntOfString s = none) :
    (expiration_date app now).result = .ok none ∧
    (expiration_date app now).warnings = [validityWarning] ∧
    containsSubstr validityWarning "must be an int, a string castable to an int, or" := by
  rw [expiration_date_of_nonnumeric_str app now s hs hp]
  exact ⟨rfl, rfl, "EASYJWT_TOKEN_VALIDITY ", " datetime.timedelta.", by decide⟩

/-- Witness for claim C4 at the concrete input "15 minutes". -/
theorem expiration_date_nonnumeric_warns_witness :
    (expiration_date ⟨[("EASYJWT_TOKEN_VALIDITY", .str "15 minutes")], []⟩ 0).result
        = .ok none ∧
    (expiration_date ⟨[("EASYJWT_TOKEN_VALIDITY", .str "15 minutes")], []⟩ 0).warnings
        = [validityWarning] ∧
    containsSubstr validityWarning "must be an int, a string castable to an int, or" :=
  expiration_date_nonnumeric_warns ⟨[("EASYJWT_TOKEN_VALIDITY", .str "15 minutes")], []⟩ 0
    "15 minutes" (by decide) (by decide)

/-- Claim C10: because Python bool is a subtype of int, a boolean
validity is treated as a count of seconds (True as one second, False
as zero) instead of being rejected with a warning. -/
theorem expiration_date_bool_as_int (app : App) (now : Int) (b : Bool)
    (h : lookup app.config CONFIGURATION_TOKEN_VALIDITY = some (.bool b)) :
    expiration_date app now
      = ⟨.ok (some (now + (if b then 1 else 0) * 1000000)), [], app⟩ :=
  expiration_date_of_bool_val app now b h

/-- Witness for claim C10 at the concrete input True: the expiration
date is one second after now, with no warning. -/
theorem expiration_date_bool_as_int_witness :
    expiration_date ⟨[("EASYJWT_TOKEN_VALIDITY", .bool true)], []⟩ 0
      = ⟨.ok (some (0 + (if true then 1 else 0) * 1000000)), [],
          ⟨[("EASYJWT_TOKEN_VALIDITY", .bool true)], []⟩⟩ :=
  expiration_date_bool_as_int ⟨[("EASYJWT_TOKEN_VALIDITY", .bool true)], []⟩ 0 true (by decide)

/-! ### Claims about the key accessor, initialization, and context -/

/-- Claim C5: if the key entry holds a non-null value, the key
accessor returns that value verbatim with no warning; if it is unset
(null after defaulting), it returns `None` and emits exactly one
warning containing "No key set". -/
theorem key_resolution (app : App) :
    (∀ v, lookup app.config CONFIGURATION_KEY = some v → v ≠ .pynone →
      key app = ⟨.ok (some v), [], app⟩) ∧
    (lookup app.config CONFIGURATION_KEY = some .pynone →
      key app = ⟨.ok none, [noKeyAccessWarning], app⟩ ∧
      containsSubstr noKeyAccessWarning "No key set") := by
  constructor
  · intro v hv hne
    simp [key, hv, hne]
  · intro hv
    exact ⟨by simp [key, hv], "", ", token will not be encrypted. Set EASYJWT_KEY.", by decide⟩

/-- Witness for claim C5 at a concrete input: a configured key is
returned verbatim with no warning. -/
theorem key_resolution_witness :
    key ⟨[("EASYJWT_KEY", .str "s3cr3t")], []⟩
      = ⟨.ok (some (.str "s3cr3t")), [], ⟨[("EASYJWT_KEY", .str "s3cr3t")], []⟩⟩ :=
  (key_resolution ⟨[("EASYJWT_KEY", .str "s3cr3t")], []⟩).1 (.str "s3cr3t")
    (by decide) (by decide)

/-- Claim C6: init_app uses set-if-absent defaulting. With only
SECRET_KEY configured (non-null) and no EASYJWT_KEY entry, the
EASYJWT_KEY entry afterwards equals the secret key and no warning is
emitted; with neither key configured, EASYJWT_KEY remains unset (its
entry is null) and exactly one warning containing "No key set for
encrypting tokens." is emitted; an existing EASYJWT_KEY entry is never
overwritten. -/
theorem init_app_defaulting (e : Nat) (app : App) :
    (∀ s, lookup app.config "SECRET_KEY" = some s → s ≠ .pynone →
      lookup app.config CONFIGURATION_KEY = none →
      lookup (init_app e app).1.config CONFIGURATION_KEY = some s ∧
      (init_app e app).2 = []) ∧
    ((lookup app.config "SECRET_KEY" = none ∨
        lookup app.config "SECRET_KEY" = some .pynone) →
      (lookup app.config CONFIGURATION_KEY = none ∨
        lookup app.config CONFIGURATION_KEY = some .pynone) →
      lookup (init_app e app).1.config CONFIGURATION_KEY = some .pynone ∧
      (init_app e app).2 = [noKeyInitWarning] ∧
      containsSubstr noKeyInitWarning "No key set for encrypting tokens.") ∧
    (∀ v, lookup app.config CONFIGURATION_KEY = some v →
      lookup (init_app e app).1.config CONFIGURATION_KEY = some v) := by
  have hne : CONFIGURATION_TOKEN_VALIDITY ≠ CONFIGURATION_KEY := by decide
  refine ⟨?_, ?_, ?_⟩
  · intro s hs hsn hk
    have hk1 : lookup (setdefault app.config CONFIGURATION_KEY
        ((lookup app.config "SECRET_KEY").getD .pynone)) CONFIGURATION_KEY = some s := by
      rw [lookup_setdefault_self, hs, hk]
      rfl
    have hk2 : lookup (setdefault (setdefault app.config CONFIGURATION_KEY
        ((lookup app.config "SECRET_KEY").getD .pynone)) CONFIGURATION_TOKEN_VALIDITY .pynone)
        CONFIGURATION_KEY = some s := by
      rw [lookup_setdefault_ne _ _ _ _ hne, hk1]
    simp only [init_app]
    refine ⟨hk2, ?_⟩
    rw [hk2]
    simp [hsn]
  · intro hs hk
    have hsd : (lookup app.config "SECRET_KEY").getD .pynone = .pynone := by
      rcases hs with h | h <;> rw [h] <;> rfl
    have hk1 : lookup (setdefault app.config CONFIGURATION_KEY
        ((lookup app.config "SECRET_KEY").getD .pynone)) CONFIGURATION_KEY = some .pynone := by
      rw [lookup_setdefault_self, hsd]
      rcases hk with h | h <;> rw [h] <;> rfl
    have hk2 : lookup (setdefault (setdefault app.config CONFIGURATION_KEY
        ((lookup app.config "SECRET_KEY").getD .pynone)) CONFIGURATION_TOKEN_VALIDITY .pynone)
        CONFIGURATION_KEY = some .pynone := by
      rw [lookup_setdefault_ne _ _ _ _ hne, hk1]
    simp only [init_app]
    refine ⟨hk2, ?_, "", " Set SECRET_KEY or EASYJWT_KEY.", by decide⟩
    rw [hk2]
    simp
  · intro v hv
    have hk1 : lookup (setdefault app.config CONFIGURATION_KEY
        ((lookup app.config "SECRET_KEY").getD .pynone)) CONFIGURATION_KEY = some v := by
      rw [lookup_setdefault_self, hv]
      rfl
    have hk2 : lookup (setdefault (setdefault app.config CONFIGURATION_KEY
        ((lookup app.config "SECRET_KEY").getD .pynone)) CONFIGURATION_TOKEN_VALIDITY .pynone)
        CONFIGURATION_KEY = some v := by
      rw [lookup_setdefault_ne _ _ _ _ hne, hk1]
    simp only [init_app]
    exact hk2

/-- Witness for claim C6 at a concrete input: with only SECRET_KEY
configured, the dedicated key entry is defaulted to the secret key and
no warning is emitted. -/
theorem init_app_defaulting_witness :
    lookup (init_app 7 ⟨[("SECRET_KEY", .str "app-secret")], []⟩).1.config
        CONFIGURATION_KEY = some (.str "app-secret") ∧
    (init_app 7 ⟨[("SECRET_KEY", .str "app-secret")], []⟩).2 = [] :=
  (init_app_defaulting 7 ⟨[("SECRET_KEY", .str "app-secret")], []⟩).1 (.str "app-secret")
    (by decide) (by decide) (by decide)

/-- Claim C7: init_app is idempotent in effect — running it twice on
an application leaves the configuration mapping and the extension
registry in the same state as running it once (warnings aside). -/
theorem init_app_idempotent (e : Nat) (app : App) :
    (init_app e (init_app e app).1).1 = (init_app e app).1 := by
  have hne : CONFIGURATION_TOKEN_VALIDITY ≠ CONFIGURATION_KEY := by decide
  simp only [init_app]
  have hk1 : lookup (setdefault (setdefault app.config CONFIGURATION_KEY
      ((lookup app.config "SECRET_KEY").getD .pynone)) CONFIGURATION_TOKEN_VALIDITY .pynone)
      CONFIGURATION_KEY
      = some ((lookup app.config CONFIGURATION_KEY).getD
          ((lookup app.config "SECRET_KEY").getD .pynone)) := by
    rw [lookup_setdefault_ne _ _ _ _ hne, lookup_setdefault_self]
  have hv1 : lookup (setdefault (setdefault app.config CONFIGURATION_KEY
      ((lookup app.config "SECRET_KEY").getD .pynone)) CONFIGURATION_TOKEN_VALIDITY .pynone)
      CONFIGURATION_TOKEN_VALIDITY
      = some ((lookup (setdefault app.config CONFIGURATION_KEY
          ((lookup app.config "SECRET_KEY").getD .pynone))
          CONFIGURATION_TOKEN_VALIDITY).getD .pynone) := by
    rw [lookup_setdefault_self]
  rw [setdefault_of_some _ _ _ _ hk1]
  rw [setdefault_of_some _ _ _ _ hv1]
  rw [store_store]

/-- Claim C8: the two accessors are pure reads — evaluating either one
leaves the application state, and hence every entry of the
configuration mapping, unchanged. -/
theorem accessors_pure_reads (app : App) (now : Int) :
    (expiration_date app now).finalApp = app ∧ (key app).finalApp = app ∧
    (∀ k, lookup (expiration_date app now).finalApp.config k = lookup app.config k) ∧
    (∀ k, lookup (key app).finalApp.config k = lookup app.config k) := by
  have he : (expiration_date app now).finalApp = app := by
    rcases h : lookup app.config CONFIGURATION_TOKEN_VALIDITY with _ | v
    · rw [expiration_date_of_absent app now h]
    · cases v with
      | pynone => rw [expiration_date_of_null app now h]
      | str s =>
          rcases hp : pyIntOfString s with _ | n
          · rw [expiration_date_of_nonnumeric_str app now s h hp]
          · rw [expiration_date_of_numeric_str app now s n h hp]
      | int n => rw [expiration_date_of_int app now n h]
      | bool b => rw [expiration_date_of_bool_val app now b h]
      | timedelta us => rw [expiration_date_of_timedelta app now us h]
      | other tag => rw [expiration_date_of_other app now tag h]
  have hk : (key app).finalApp = app := by
    rcases h : lookup app.config CONFIGURATION_KEY with _ | v
    · simp [key, h]
    · by_cases hv : v = .pynone <;> simp [key, h, hv]
  exact ⟨he, hk, fun k => by rw [he], fun k => by rw [hk]⟩

/-- Claim C9: calling a configuration accessor with no explicitly
bound application and no ambient active application raises the context
error from `current_app` and never returns a default value. -/
theorem accessor_context_error :
    (∀ now, expirationDateAccessor none none now
      = (.error (.runtimeError "Working outside of application context."), [])) ∧
    keyAccessor none none
      = (.error (.runtimeError "Working outside of application context."), []) :=
  ⟨fun _ => rfl, rfl⟩

end FlaskEasyJWT
